import Mathlib

/-!
Shallow embedding of the two course notebooks of this repository.

Part 1 (`ResNetDemo`): the residual `BuildingBlock` of
`demo05-implement-resnet-visualize-loss-landscape.ipynb`, in its unpadded
and padded versions, over an explicit 4-dimensional tensor type.  Tensor
entries are rationals; the shape semantics of `nn.Conv2d`,
`nn.BatchNorm2d`, `nn.ReLU` and of the in-place residual addition
`out += x` follow the framework's documented behaviour (an operation that
raises a shape error is embedded as returning `none`).

Part 2 (`ImplicitReg`): the width-sweep notebook: the `AbaloneData`
dataset indexing, the two-layer `Model`, `get_test_loss` (training by
mini-batch SGD on the mean-squared error, evaluation on the first test
batch), and the sweep driver with its threshold-based retry loop.
-/

namespace ResNetDemo

/-- A 4-dimensional tensor of shape (batch, channels, height, width).
Entries are kept as a total function; entries outside the shape bounds
are irrelevant to every operation. -/
structure Tensor4 where
  batch : Nat
  channels : Nat
  height : Nat
  width : Nat
  data : Nat → Nat → Nat → Nat → ℚ

/-- The state of an `nn.Conv2d(in_channels, out_channels, kernel_size, padding)`
layer: its configuration plus its weight (out, in, kh, kw) and bias. -/
structure Conv2d where
  in_channels : Nat
  out_channels : Nat
  kernel_size : Nat
  padding : Nat
  weight : Nat → Nat → Nat → Nat → ℚ
  bias : Nat → ℚ

/-- Reading the zero-padded input: coordinate (u, v) of the input padded with
`p` zeros on each spatial side. -/
def padRead (x : Tensor4) (p b c u v : Nat) : ℚ :=
  if p ≤ u ∧ u < p + x.height ∧ p ≤ v ∧ v < p + x.width then
    x.data b c (u - p) (v - p)
  else 0

/-- The output tensor of a convolution (independently of the validity checks):
the cross-correlation of the zero-padded input with the kernel, plus the bias;
the output spatial extent is `H + 2*padding - kernel_size + 1`. -/
def Conv2d.outT (conv : Conv2d) (x : Tensor4) : Tensor4 :=
  { batch := x.batch
    channels := conv.out_channels
    height := x.height + 2 * conv.padding + 1 - conv.kernel_size
    width := x.width + 2 * conv.padding + 1 - conv.kernel_size
    data := fun b o i j =>
      conv.bias o + ∑ c ∈ Finset.range conv.in_channels,
        ∑ ki ∈ Finset.range conv.kernel_size,
          ∑ kj ∈ Finset.range conv.kernel_size,
            conv.weight o c ki kj * padRead x conv.padding b c (i + ki) (j + kj) }

/-- Forward pass of `nn.Conv2d` on a 4-d input: requires the input channel
count to match and the padded spatial extent to be at least the kernel size
(the framework raises a RuntimeError otherwise, embedded as `none`). -/
def Conv2d.apply (conv : Conv2d) (x : Tensor4) : Option Tensor4 :=
  if x.channels = conv.in_channels ∧ conv.kernel_size ≤ x.height + 2 * conv.padding ∧
      conv.kernel_size ≤ x.width + 2 * conv.padding then
    some (conv.outT x)
  else none

/-- Per-channel mean of a batch, taken over batch and spatial dimensions,
as `nn.BatchNorm2d` computes it in training mode. -/
def batchMean (x : Tensor4) (c : Nat) : ℚ :=
  (∑ b ∈ Finset.range x.batch, ∑ i ∈ Finset.range x.height, ∑ j ∈ Finset.range x.width,
    x.data b c i j) / (x.batch * x.height * x.width)

/-- The state of an `nn.BatchNorm2d(num_features)` layer.  `invstd` stands for
the per-channel factor `1 / sqrt(var + eps)` of the current batch: the square
root of the batch variance is irrational in general, so the embedding carries
this factor as an oracle indexed by the input batch.  No claim of this file
depends on its value, only on the map being applied per channel and
elementwise (hence shape-preserving). -/
structure BatchNorm2d where
  num_features : Nat
  gamma : Nat → ℚ
  beta : Nat → ℚ
  invstd : Tensor4 → Nat → ℚ

/-- The output tensor of batch normalization: each entry normalized with the
batch statistics of its channel, then the learned per-channel affine map.
The shape is unchanged. -/
def BatchNorm2d.outT (bn : BatchNorm2d) (x : Tensor4) : Tensor4 :=
  { x with data := fun b c i j =>
      bn.gamma c * ((x.data b c i j - batchMean x c) * bn.invstd x c) + bn.beta c }

/-- Forward pass of `nn.BatchNorm2d` in training mode: requires the channel
count to match `num_features`, and — the training-mode check of
`_verify_batch_size` — more than one value per channel in the batch
(`batch * height * width > 1`); the framework raises a ValueError
("Expected more than 1 value per channel when training") otherwise,
embedded as `none`. -/
def BatchNorm2d.apply (bn : BatchNorm2d) (x : Tensor4) : Option Tensor4 :=
  if x.channels = bn.num_features ∧ 1 < x.batch * x.height * x.width then
    some (bn.outT x)
  else none

/-- Elementwise `nn.ReLU` on a 4-d tensor; the shape is unchanged. -/
def reluT (x : Tensor4) : Tensor4 :=
  { x with data := fun b c i j => max 0 (x.data b c i j) }

/-- Index of the source operand an output coordinate reads under
broadcasting: a dimension of size 1 is read at 0. -/
def bcastIdx (xdim i : Nat) : Nat := if xdim = 1 then 0 else i

/-- The elementwise sum with `x` broadcast over `t`'s shape. -/
def Tensor4.addOut (t x : Tensor4) : Tensor4 :=
  let d := fun b c i j =>
    t.data b c i j +
      x.data (bcastIdx x.batch b) (bcastIdx x.channels c) (bcastIdx x.height i)
        (bcastIdx x.width j)
  { t with data := d }

/-- The in-place addition `out += x`: the result keeps `out`'s shape and `x`
must broadcast into it, i.e. every dimension of `x` equals the corresponding
dimension of `out` or equals 1; otherwise the framework raises the
shape-mismatch RuntimeError, embedded as `none`. -/
def Tensor4.addInPlace (t x : Tensor4) : Option Tensor4 :=
  if (x.batch = t.batch ∨ x.batch = 1) ∧ (x.channels = t.channels ∨ x.channels = 1) ∧
      (x.height = t.height ∨ x.height = 1) ∧ (x.width = t.width ∨ x.width = 1) then
    some (t.addOut x)
  else none

/-- The `BuildingBlock` module: two (convolution, batch norm, ReLU) stages. -/
structure BuildingBlock where
  conv1 : Conv2d
  bn1 : BatchNorm2d
  conv2 : Conv2d
  bn2 : BatchNorm2d

/-- The first, unpadded `BuildingBlock.__init__` of the notebook: both
convolutions are `nn.Conv2d(num_channels, num_channels, kernel_size=3)` with
the default padding 0.  The learned parameters of the four layers are
explicit arguments. -/
def BuildingBlock.mkUnpadded (nc : Nat)
    (w1 : Nat → Nat → Nat → Nat → ℚ) (b1 : Nat → ℚ)
    (g1 be1 : Nat → ℚ) (inv1 : Tensor4 → Nat → ℚ)
    (w2 : Nat → Nat → Nat → Nat → ℚ) (b2 : Nat → ℚ)
    (g2 be2 : Nat → ℚ) (inv2 : Tensor4 → Nat → ℚ) : BuildingBlock :=
  { conv1 := ⟨nc, nc, 3, 0, w1, b1⟩
    bn1 := ⟨nc, g1, be1, inv1⟩
    conv2 := ⟨nc, nc, 3, 0, w2, b2⟩
    bn2 := ⟨nc, g2, be2, inv2⟩ }

/-- The fixed `BuildingBlock.__init__` of the notebook: as `mkUnpadded` but
with `padding=1` on both convolutions. -/
def BuildingBlock.mkPadded (nc : Nat)
    (w1 : Nat → Nat → Nat → Nat → ℚ) (b1 : Nat → ℚ)
    (g1 be1 : Nat → ℚ) (inv1 : Tensor4 → Nat → ℚ)
    (w2 : Nat → Nat → Nat → Nat → ℚ) (b2 : Nat → ℚ)
    (g2 be2 : Nat → ℚ) (inv2 : Tensor4 → Nat → ℚ) : BuildingBlock :=
  { conv1 := ⟨nc, nc, 3, 1, w1, b1⟩
    bn1 := ⟨nc, g1, be1, inv1⟩
    conv2 := ⟨nc, nc, 3, 1, w2, b2⟩
    bn2 := ⟨nc, g2, be2, inv2⟩ }

/-- Forward pass `BuildingBlock.forward`: conv1, bn1, relu1, conv2, bn2, then the skip
connection `out += x`, then relu2.  The two `print` calls of the source are
side effects with no bearing on the returned value and are not modelled. -/
def BuildingBlock.forward (blk : BuildingBlock) (x : Tensor4) : Option Tensor4 :=
  (blk.conv1.apply x).bind fun o1 =>
    (blk.bn1.apply o1).bind fun o1n =>
      let a1 := reluT o1n
      (blk.conv2.apply a1).bind fun o2 =>
        (blk.bn2.apply o2).bind fun o2n =>
          (o2n.addInPlace x).map reluT

end ResNetDemo

namespace ImplicitReg

/-- One parsed row of `abalone.data` as `pd.read_csv` delivers it: the
categorical sex column (a string) followed by the eight numeric columns
(seven morphometric features and the ring-count target). -/
structure AbaloneRow where
  sex : String
  nums : List ℚ

/-- The body of `AbaloneData.__getitem__`: the feature vector is the binary
encoding of the sex column (0 for the string M, 1 otherwise) followed by
`row[1:8]`, i.e. the first seven numeric columns; the label is `row[8]`, the
ninth column of the row.  Device placement and the float64 cast are identity
on the values and are not modelled. -/
def abaloneGetItem (row : AbaloneRow) : List ℚ × ℚ :=
  ((if row.sex = "M" then (0 : ℚ) else 1) :: row.nums.take 7, row.nums.getD 7 0)

/-- A training or test mini-batch: a list of (feature vector, label) samples.
Feature vectors are total functions; only coordinates 0..7 are read. -/
def Batch : Type := List ((Nat → ℚ) × ℚ)

/-- The scalar rectifier applied by `nn.ReLU`. -/
def relu (v : ℚ) : ℚ := max 0 v

/-- The sweep model `Model(layer_size)`:
`nn.Sequential(nn.Linear(8, layer_size, bias=False), nn.ReLU(),
nn.Linear(layer_size, 1, bias=False), nn.ReLU())`.  Both linear layers are
built without bias, so each owns a single weight matrix: `w1` of shape
(layer_size, 8) and `w2` of shape (1, layer_size). -/
structure Model where
  layer_size : Nat
  w1 : Nat → Nat → ℚ
  w2 : Nat → Nat → ℚ

/-- Pre-activation of hidden unit `c`: row `c` of `w1` applied to the 8
input features. -/
def Model.z1 (m : Model) (x : Nat → ℚ) (c : Nat) : ℚ :=
  ∑ j ∈ Finset.range 8, m.w1 c j * x j

/-- Hidden activation: the first ReLU. -/
def Model.hidden (m : Model) (x : Nat → ℚ) (c : Nat) : ℚ := relu (m.z1 x c)

/-- Pre-activation of the single output unit: `w2` applied to the hidden
activations. -/
def Model.z2 (m : Model) (x : Nat → ℚ) : ℚ :=
  ∑ c ∈ Finset.range m.layer_size, m.w2 0 c * m.hidden x c

/-- Forward pass `Model.forward` on one sample, already squeezed to a scalar (the output
layer has one unit): the second ReLU applied to the output pre-activation. -/
def Model.forward (m : Model) (x : Nat → ℚ) : ℚ := relu (m.z2 x)

/-- Total parameter count `sum(p.numel() for p in model.parameters())`: the
two weight matrices have `layer_size * 8` and `1 * layer_size` entries. -/
def Model.numParams (m : Model) : Nat := m.layer_size * 8 + 1 * m.layer_size

/-- The criterion `nn.MSELoss()` with its default mean reduction: the mean of the squared
componentwise differences. -/
def mseLoss (pred target : List ℚ) : ℚ :=
  (((pred.zip target).map fun p => (p.1 - p.2) ^ 2).sum) / pred.length

/-- MSE of the model's predictions on a batch: `criterion(model(x).squeeze(), y)`. -/
def Model.batchLoss (m : Model) (batch : Batch) : ℚ :=
  mseLoss (batch.map fun s => m.forward s.1) (batch.map fun s => s.2)

/-- Derivative the framework uses for ReLU: 1 on positive pre-activations,
0 elsewhere (0 at 0). -/
def reluDeriv (z : ℚ) : ℚ := if 0 < z then 1 else 0

/-- Gradient of the batch MSE with respect to `w2` (entry (0, c)), as
`loss.backward()` computes it for this architecture: for each sample the
output error `2 * (yhat - y) / N` flows through the final ReLU and multiplies
the hidden activation `c`. -/
def Model.gradW2 (m : Model) (batch : Batch) (c : Nat) : ℚ :=
  (batch.map fun s =>
    2 * (m.forward s.1 - s.2) / batch.length * reluDeriv (m.z2 s.1) * m.hidden s.1 c).sum

/-- Gradient of the batch MSE with respect to `w1` (entry (c, j)): the output
error flows through the final ReLU, the weight `w2 0 c`, and the hidden ReLU
of unit `c`, and multiplies input feature `j`. -/
def Model.gradW1 (m : Model) (batch : Batch) (c j : Nat) : ℚ :=
  (batch.map fun s =>
    2 * (m.forward s.1 - s.2) / batch.length * reluDeriv (m.z2 s.1) * m.w2 0 c *
      reluDeriv (m.z1 s.1 c) * s.1 j).sum

/-- One `optimizer.zero_grad(); loss.backward(); optimizer.step()` round of
`torch.optim.SGD(model.parameters(), lr=.01)` on one mini-batch: plain
gradient descent at the fixed learning rate 1/100. -/
def sgdStep (m : Model) (batch : Batch) : Model :=
  { m with
    w1 := fun c j => m.w1 c j - 1 / 100 * m.gradW1 batch c j
    w2 := fun o c => m.w2 o c - 1 / 100 * m.gradW2 batch c }

/-- One epoch of the training loop: `for x, y in train_loader: ...`, an SGD
step on each mini-batch in order. -/
def trainEpoch (batches : List Batch) (m : Model) : Model :=
  batches.foldl sgdStep m

/-- The epoch loop `for epoch in range(epochs)`: `loader e` is the sequence of
mini-batches the shuffling train loader yields in epoch `e`; epochs are
processed in order 0, 1, …. -/
def trainLoop (loader : Nat → List Batch) : Nat → Model → Model
  | 0, m => m
  | e + 1, m => trainEpoch (loader e) (trainLoop loader e m)

/-- A `DataLoader` without shuffling over a list dataset: the consecutive
chunks of `bs` samples, the last chunk possibly shorter.  A batch size of 0
is rejected by the framework; it yields no batch here. -/
def batchesOf (bs : Nat) (l : List α) : List (List α) :=
  if l.length = 0 ∨ bs = 0 then []
  else l.take bs :: batchesOf bs (l.drop bs)
  termination_by l.length
  decreasing_by
    rename_i h
    push_neg at h
    simp only [List.length_drop]
    omega

/-- The first batch an iterator over the loader yields:
`next(iter(test_loader))`. -/
def firstBatch (loader : List (List α)) : List α := loader.headD []

/-- The function `get_test_loss(layer_size, epochs)` of the notebook.  What
the script leaves to chance is made explicit: `w1` and `w2` are the random
initial weights of the fresh `Model(layer_size)`, `trainLoader e` the batch
sequence the shuffling train loader yields in epoch `e`, and `testData` the
held-out rows (the test loader batches them with `batch_size=1000` and no
shuffling).  The model is trained for `epochs` epochs of SGD (lr = 1/100) on
the MSE loss, the loss is evaluated on the first test batch, and the pair
(test loss, parameter count) is returned.  The accumulated `train_loss` is
computed and discarded by the source; it does not affect the result. -/
def get_test_loss (layer_size epochs : Nat) (w1 w2 : Nat → Nat → ℚ)
    (trainLoader : Nat → List Batch) (testData : Batch) : ℚ × Nat :=
  let model : Model := ⟨layer_size, w1, w2⟩
  let trained := trainLoop trainLoader epochs model
  let batch := firstBatch (batchesOf 1000 testData)
  let test_loss := mseLoss (batch.map fun s => trained.forward s.1) (batch.map fun s => s.2)
  (test_loss, trained.numParams)

/-- The fixed `num_runs = 10` of the sweep cell. -/
def num_runs : Nat := 10

/-- One run of the sweep body: `test_loss, num_param = get_test_loss(...)`
followed by `while test_loss > 15: test_loss, num_param = get_test_loss(...)`.
Each call of `get_test_loss` trains from a fresh random initialization, so the
sequence of outcomes is an oracle `gtl`: `gtl n` is what the (n+1)-th call
returns.  `fuel` bounds the number of calls, `none` standing for a loop that
has not terminated within the bound. -/
def retryRun (gtl : Nat → ℚ × Nat) : Nat → Nat → Option (ℚ × Nat)
  | _, 0 => none
  | n, fuel + 1 => if 15 < (gtl n).1 then retryRun gtl (n + 1) fuel else some (gtl n)

/-- The inner loop of the sweep for one width:
`avg_test_loss = 0; for run in range(num_runs): ...;
avg_test_loss += test_loss / num_runs`.  `gtl run n` is the outcome of run
`run`'s (n+1)-th call of `get_test_loss`. -/
def sweepWidth (gtl : Nat → Nat → ℚ × Nat) (fuel : Nat) : Option ℚ :=
  (List.range num_runs).foldl
    (fun acc run => acc.bind fun a =>
      (retryRun (gtl run) 0 fuel).map fun r => a + r.1 / (num_runs : ℚ))
    (some 0)

/-- The swept widths `range(1, 250, 20)`: 1, 21, …, 241. -/
def layerSizes : List Nat := List.range' 1 13 20

/-- The outer sweep loop building `test_losses`: for each width the average
test loss over `num_runs` accepted runs is appended.  `gtl ls run n` is the
outcome of the (n+1)-th `get_test_loss(ls, epochs)` call of run `run` at
width `ls`. -/
def sweepTestLosses (gtl : Nat → Nat → Nat → ℚ × Nat) (fuel : Nat) : Option (List ℚ) :=
  layerSizes.foldl
    (fun acc ls => acc.bind fun l => (sweepWidth (gtl ls) fuel).map fun v => l ++ [v])
    (some [])

end ImplicitReg

namespace ImplicitReg

/-- SGD steps keep the hidden width (they only rewrite weight entries). -/
theorem sgdStep_layer_size (m : Model) (b : Batch) : (sgdStep m b).layer_size = m.layer_size :=
  rfl

/-- An epoch of SGD keeps the hidden width. -/
theorem trainEpoch_layer_size (bs : List Batch) (m : Model) :
    (trainEpoch bs m).layer_size = m.layer_size := by
  induction bs generalizing m with
  | nil => rfl
  | cons b bs ih => simpa [trainEpoch, List.foldl_cons] using ih (sgdStep m b)

/-- The whole training loop keeps the hidden width. -/
theorem trainLoop_layer_size (tl : Nat → List Batch) (e : Nat) (m : Model) :
    (trainLoop tl e m).layer_size = m.layer_size := by
  induction e with
  | zero => rfl
  | succ e ih => rw [trainLoop, trainEpoch_layer_size, ih]

/-- The epoch loop is the left fold of the per-epoch step over `range epochs`. -/
theorem trainLoop_eq_foldl (tl : Nat → List Batch) (e : Nat) (m : Model) :
    trainLoop tl e m = (List.range e).foldl (fun mm k => trainEpoch (tl k) mm) m := by
  induction e with
  | zero => rfl
  | succ e ih => rw [trainLoop, ih, List.range_succ, List.foldl_append, List.foldl_cons,
      List.foldl_nil]

/-- C3: for every hidden width W ≥ 1, the sweep model has exactly
8·W + W·1 = 9W trainable scalar parameters, and the `num_param` component
returned by `get_test_loss` equals 9W. -/
theorem model_param_count_9W (W : Nat) (hW : 1 ≤ W) (w1 w2 : Nat → Nat → ℚ)
    (epochs : Nat) (tl : Nat → List Batch) (td : Batch) :
    Model.numParams ⟨W, w1, w2⟩ = 9 * W ∧
    (get_test_loss W epochs w1 w2 tl td).2 = 9 * W := by
  constructor
  · show W * 8 + 1 * W = 9 * W
    omega
  · have h2 : (get_test_loss W epochs w1 w2 tl td).2 =
        (trainLoop tl epochs ⟨W, w1, w2⟩).layer_size * 8 +
          1 * (trainLoop tl epochs ⟨W, w1, w2⟩).layer_size := rfl
    rw [h2, trainLoop_layer_size]
    show W * 8 + 1 * W = 9 * W
    omega

theorem model_param_count_9W_witness :
    Model.numParams ⟨3, fun _ _ => 0, fun _ _ => 0⟩ = 9 * 3 ∧
    (get_test_loss 3 1 (fun _ _ => 0) (fun _ _ => 0) (fun _ => []) []).2 = 9 * 3 :=
  model_param_count_9W 3 (by norm_num) (fun _ _ => 0) (fun _ _ => 0) 1 (fun _ => []) []

/-- C9: the sweep model's output is non-negative for every input (the network
ends in a ReLU), and a model whose final pre-activation is everywhere
non-positive outputs identically zero. -/
theorem model_output_nonneg (m : Model) :
    (∀ x, 0 ≤ m.forward x) ∧ ((∀ x, m.z2 x ≤ 0) → ∀ x, m.forward x = 0) := by
  constructor
  · intro x
    exact le_max_left 0 (m.z2 x)
  · intro h x
    simp only [Model.forward, relu]
    exact max_eq_left (h x)

/-- C6: `get_test_loss` returns the pair (MSE of the trained model on the
first test batch, 9·layer_size); the trained model is exactly `epochs`
epoch-passes of SGD over the training loader applied to the fresh model; the
model applies ReLU after each of its two bias-free linear layers; and each
SGD step moves every weight entry against its gradient with the fixed
learning rate 1/100. -/
theorem get_test_loss_contract (ls epochs : Nat) (w1 w2 : Nat → Nat → ℚ)
    (tl : Nat → List Batch) (td : Batch) :
    (get_test_loss ls epochs w1 w2 tl td).2 = 9 * ls ∧
    (get_test_loss ls epochs w1 w2 tl td).1 =
      (trainLoop tl epochs ⟨ls, w1, w2⟩).batchLoss (firstBatch (batchesOf 1000 td)) ∧
    (∀ m : Model, ∀ x, m.forward x =
      relu (∑ c ∈ Finset.range m.layer_size,
        m.w2 0 c * relu (∑ j ∈ Finset.range 8, m.w1 c j * x j))) ∧
    (∀ m b c j, (sgdStep m b).w1 c j = m.w1 c j - 1 / 100 * m.gradW1 b c j) ∧
    (∀ m b o c, (sgdStep m b).w2 o c = m.w2 o c - 1 / 100 * m.gradW2 b c) ∧
    trainLoop tl epochs ⟨ls, w1, w2⟩ =
      (List.range epochs).foldl (fun mm k => trainEpoch (tl k) mm) ⟨ls, w1, w2⟩ := by
  refine ⟨?_, rfl, fun m x => rfl, fun m b c j => rfl, fun m b o c => rfl,
    trainLoop_eq_foldl tl epochs _⟩
  have h2 : (get_test_loss ls epochs w1 w2 tl td).2 =
      (trainLoop tl epochs ⟨ls, w1, w2⟩).layer_size * 8 +
        1 * (trainLoop tl epochs ⟨ls, w1, w2⟩).layer_size := rfl
  rw [h2, trainLoop_layer_size]
  show ls * 8 + 1 * ls = 9 * ls
  omega

/-- C7: `AbaloneData.__getitem__` returns a feature vector of exactly 8
entries: the sex column encoded as 0 for M and 1 otherwise (so F and I both
map to 1) followed by the seven numeric morphometric columns, and the label
is the ninth column of the row. -/
theorem abalone_getitem_contract (row : AbaloneRow) (h : row.nums.length = 8) :
    (abaloneGetItem row).1.length = 8 ∧
    (abaloneGetItem { row with sex := "M" }).1.getD 0 0 = 0 ∧
    (abaloneGetItem { row with sex := "F" }).1.getD 0 0 = 1 ∧
    (abaloneGetItem { row with sex := "I" }).1.getD 0 0 = 1 ∧
    (abaloneGetItem row).1.tail = row.nums.take 7 ∧
    (row.nums.take 7).length = 7 ∧
    (abaloneGetItem row).2 = row.nums.getD 7 0 := by
  refine ⟨?_, by simp [abaloneGetItem], by simp [abaloneGetItem], by simp [abaloneGetItem],
    rfl, ?_, rfl⟩
  · simp [abaloneGetItem, List.length_take, h]
  · simp [List.length_take, h]

theorem abalone_getitem_contract_witness :
    (abaloneGetItem ⟨"M", [1, 2, 3, 4, 5, 6, 7, 8]⟩).1.length = 8 ∧
    (abaloneGetItem ⟨"M", [1, 2, 3, 4, 5, 6, 7, 8]⟩).2 = 8 := by
  have h := abalone_getitem_contract ⟨"M", [1, 2, 3, 4, 5, 6, 7, 8]⟩ (by rfl)
  exact ⟨h.1, by rw [h.2.2.2.2.2.2]; rfl⟩

/-- C10: with 1000 held-out rows and a test batch size of 1000, the single
batch drawn by `next(iter(test_loader))` is the entire held-out split, so the
reported test loss is the MSE over the full test split. -/
theorem test_loss_full_split (ls epochs : Nat) (w1 w2 : Nat → Nat → ℚ)
    (tl : Nat → List Batch) (td : Batch) (h : td.length = 1000) :
    batchesOf 1000 td = [td] ∧
    firstBatch (batchesOf 1000 td) = td ∧
    (get_test_loss ls epochs w1 w2 tl td).1 =
      (trainLoop tl epochs ⟨ls, w1, w2⟩).batchLoss td := by
  have hb : batchesOf 1000 td = [td] := by
    rw [batchesOf]
    have h1 : ¬(td.length = 0 ∨ 1000 = 0) := by omega
    rw [if_neg h1, List.take_of_length_le (by omega), List.drop_eq_nil_of_le (by omega),
      batchesOf]
    simp
  refine ⟨hb, ?_, ?_⟩
  · rw [hb]; rfl
  · simp only [get_test_loss, hb, Model.batchLoss]
    rfl

theorem test_loss_full_split_witness :
    firstBatch (batchesOf 1000
        (List.replicate 1000 (((fun _ => 0), 0) : (Nat → ℚ) × ℚ))) =
      List.replicate 1000 (((fun _ => 0), 0) : (Nat → ℚ) × ℚ) :=
  (test_loss_full_split 1 1 (fun _ _ => 0) (fun _ _ => 0) (fun _ => [])
    (List.replicate 1000 (((fun _ => 0), 0) : (Nat → ℚ) × ℚ))
    (List.length_replicate _ _)).2.1

/-- Whatever the retry loop returns has been accepted by its guard, hence is
at or below the threshold 15. -/
theorem retryRun_le (gtl : Nat → ℚ × Nat) :
    ∀ fuel n r, retryRun gtl n fuel = some r → r.1 ≤ 15 := by
  intro fuel
  induction fuel with
  | zero => intro n r h; simp [retryRun] at h
  | succ fuel ih =>
    intro n r h
    rw [retryRun] at h
    split at h
    · exact ih (n + 1) r h
    · rename_i hle
      cases h
      exact le_of_not_lt hle

/-- More fuel does not change an answer the retry loop already reaches. -/
theorem retryRun_mono (gtl : Nat → ℚ × Nat) :
    ∀ fuel fuel' n r, fuel ≤ fuel' → retryRun gtl n fuel = some r →
      retryRun gtl n fuel' = some r := by
  intro fuel
  induction fuel with
  | zero => intro fuel' n r _ h; simp [retryRun] at h
  | succ fuel ih =>
    intro fuel' n r hle h
    obtain ⟨fuel2, rfl⟩ : ∃ k, fuel' = k + 1 := ⟨fuel' - 1, by omega⟩
    rw [retryRun] at h ⊢
    split at h
    · rename_i hgt
      rw [if_pos hgt]
      exact ih fuel2 (n + 1) r (by omega) h
    · rename_i hgt
      rwa [if_neg hgt]

/-- With enough fuel the retry loop returns the first attempt whose loss is
at or below the threshold, provided all earlier attempts exceed it. -/
theorem retryRun_first_accepted (gtl : Nat → ℚ × Nat) :
    ∀ (N i : Nat), (gtl (i + N)).1 ≤ 15 → (∀ k < N, 15 < (gtl (i + k)).1) →
      retryRun gtl i (N + 1) = some (gtl (i + N)) := by
  intro N
  induction N with
  | zero =>
    intro i hacc _
    have hacc2 : ¬ 15 < (gtl i).1 := not_lt.mpr (by simpa using hacc)
    rw [retryRun, if_neg hacc2]
    norm_num
  | succ N ih =>
    intro i hacc hrej
    have h0 : 15 < (gtl i).1 := by simpa using hrej 0 (Nat.succ_pos N)
    rw [retryRun, if_pos h0]
    have := ih (i + 1) (by rw [show i + 1 + N = i + (N + 1) by omega]; exact hacc)
      (fun k hk => by
        rw [show i + 1 + k = i + (k + 1) by omega]
        exact hrej (k + 1) (by omega))
    rwa [show i + 1 + N = i + (N + 1) by omega] at this

/-- C5: under the precondition that some attempt reaches a loss at or below
the threshold, the rejection-and-retry loop terminates (there is a fuel bound
within which it returns), and whenever it returns, the returned test loss is
at or below 15. -/
theorem retry_loop_terminates_below_threshold (gtl : Nat → ℚ × Nat)
    (h : ∃ n, (gtl n).1 ≤ 15) :
    (∃ fuel r, retryRun gtl 0 fuel = some r ∧ r.1 ≤ 15) ∧
    ∀ fuel r, retryRun gtl 0 fuel = some r → r.1 ≤ 15 := by
  refine ⟨⟨Nat.find h + 1, gtl (Nat.find h), ?_, Nat.find_spec h⟩,
    fun fuel r hr => retryRun_le gtl fuel 0 r hr⟩
  have := retryRun_first_accepted gtl (Nat.find h) 0 (by simpa using Nat.find_spec h)
    (fun k hk => by simpa using not_le.mp (Nat.find_min h hk))
  simpa using this

theorem retry_loop_terminates_witness :
    ∃ fuel r, retryRun (fun _ => ((3 : ℚ), 9)) 0 fuel = some r ∧ r.1 ≤ 15 :=
  (retry_loop_terminates_below_threshold (fun _ => ((3 : ℚ), 9))
    ⟨0, by norm_num⟩).1

/-- Evaluation of the per-width run loop when every run's retry loop returns
within the common fuel bound: the accumulator collects each accepted loss
divided by `num_runs`. -/
theorem sweepFold_eval (gtl : Nat → Nat → ℚ × Nat) (fuel : Nat) (res : Nat → ℚ × Nat) :
    ∀ n : Nat, (∀ run < n, retryRun (gtl run) 0 fuel = some (res run)) →
      ∀ a : ℚ,
        (List.range n).foldl
          (fun acc run => acc.bind fun a0 =>
            (retryRun (gtl run) 0 fuel).map fun r => a0 + r.1 / (num_runs : ℚ))
          (some a)
        = some (a + ∑ run ∈ Finset.range n, (res run).1 / (num_runs : ℚ)) := by
  intro n
  induction n with
  | zero => intro _ a; simp
  | succ n ih =>
    intro hres a
    rw [List.range_succ, List.foldl_append, List.foldl_cons, List.foldl_nil,
      ih (fun run hr => hres run (by omega)) a, Option.some_bind,
      hres n (by omega), Option.map_some', Finset.sum_range_succ]
    exact congrArg some (by ring)

/-- C4: the sweep body discards every attempt whose test loss exceeds 15 and
retries without surfacing an error, and the value it records for the width is
the arithmetic mean of the accepted losses of the `num_runs` runs: the sum of
the accepted losses divided by `num_runs`. -/
theorem sweep_retry_average (gtl : Nat → Nat → ℚ × Nat)
    (h : ∀ run, ∃ n, (gtl run n).1 ≤ 15) :
    ∃ fuel v, sweepWidth gtl fuel = some v ∧
      v = (∑ run ∈ Finset.range num_runs, (gtl run (Nat.find (h run))).1) / (num_runs : ℚ) ∧
      ∀ run, (gtl run (Nat.find (h run))).1 ≤ 15 ∧
        ∀ k < Nat.find (h run), 15 < (gtl run k).1 := by
  classical
  set fuel := (∑ run ∈ Finset.range num_runs, Nat.find (h run)) + 1 with hfuel
  have hres : ∀ run < num_runs, retryRun (gtl run) 0 fuel = some (gtl run (Nat.find (h run))) := by
    intro run hrun
    have hfind : retryRun (gtl run) 0 (Nat.find (h run) + 1) =
        some (gtl run (Nat.find (h run))) := by
      have := retryRun_first_accepted (gtl run) (Nat.find (h run)) 0
        (by simpa using Nat.find_spec (h run))
        (fun k hk => by simpa using not_le.mp (Nat.find_min (h run) hk))
      simpa using this
    refine retryRun_mono (gtl run) _ fuel 0 _ ?_ hfind
    have hsingle : Nat.find (h run) ≤ ∑ r ∈ Finset.range num_runs, Nat.find (h r) :=
      @Finset.single_le_sum Nat Nat _ (fun r => Nat.find (h r)) (Finset.range num_runs)
        (fun i _ => Nat.zero_le _) run (Finset.mem_range.mpr hrun)
    omega
  refine ⟨fuel,
    (∑ run ∈ Finset.range num_runs, (gtl run (Nat.find (h run))).1) / (num_runs : ℚ),
    ?_, rfl, ?_⟩
  · have he := sweepFold_eval gtl fuel (fun run => gtl run (Nat.find (h run)))
      num_runs hres 0
    rw [sweepWidth, he]
    refine congrArg some ?_
    rw [Finset.sum_div]
    ring
  · intro run
    exact ⟨Nat.find_spec (h run), fun k hk => not_le.mp (Nat.find_min (h run) hk)⟩

theorem sweep_retry_average_witness :
    ∃ fuel v, sweepWidth (fun _ _ => ((3 : ℚ), 9)) fuel = some v :=
  have h := sweep_retry_average (fun _ _ => ((3 : ℚ), 9)) (fun _ => ⟨0, by norm_num⟩)
  ⟨h.choose, h.choose_spec.choose, h.choose_spec.choose_spec.1⟩

/-- Any value the per-width fold produces from a start value `a` is bounded by
`a` plus `n` increments of at most 15 / num_runs each. -/
theorem sweepFold_le (gtl : Nat → Nat → ℚ × Nat) (fuel : Nat) :
    ∀ (n : Nat) (a v : ℚ),
      (List.range n).foldl
        (fun acc run => acc.bind fun a0 =>
          (retryRun (gtl run) 0 fuel).map fun r => a0 + r.1 / (num_runs : ℚ))
        (some a) = some v →
      v ≤ a + n * (15 / (num_runs : ℚ)) := by
  intro n
  induction n with
  | zero =>
    intro a v hv
    simp only [List.range_zero, List.foldl_nil, Option.some.injEq] at hv
    simp [← hv]
  | succ n ih =>
    intro a v hv
    rw [List.range_succ, List.foldl_append, List.foldl_cons, List.foldl_nil] at hv
    rcases hprev : (List.range n).foldl
        (fun acc run => acc.bind fun a0 =>
          (retryRun (gtl run) 0 fuel).map fun r => a0 + r.1 / (num_runs : ℚ))
        (some a) with _ | a0
    · rw [hprev] at hv
      simp at hv
    · rw [hprev, Option.some_bind] at hv
      rcases hr : retryRun (gtl n) 0 fuel with _ | r
      · rw [hr] at hv
        simp at hv
      · rw [hr, Option.map_some', Option.some.injEq] at hv
        have h1 : a0 ≤ a + n * (15 / (num_runs : ℚ)) := ih a a0 hprev
        have h2 : r.1 ≤ 15 := retryRun_le (gtl n) fuel 0 r hr
        have hnr : ((num_runs : Nat) : ℚ) = 10 := by norm_num [num_runs]
        rw [hnr] at h1 ⊢
        have h4 : r.1 / (10 : ℚ) ≤ 15 / 10 := by linarith
        rw [← hv, hnr]
        push_cast
        linarith

/-- A per-width average the sweep records is at most the threshold. -/
theorem sweepWidth_le (gtl : Nat → Nat → ℚ × Nat) (fuel : Nat) (v : ℚ)
    (hv : sweepWidth gtl fuel = some v) : v ≤ 15 := by
  have := sweepFold_le gtl fuel num_runs 0 v hv
  have h10 : ((num_runs : Nat) : ℚ) = 10 := by norm_num [num_runs]
  rw [h10] at this
  linarith [this]

/-- The outer sweep fold cannot recover from a missing value. -/
theorem sweepOuterFold_none (gtl : Nat → Nat → Nat → ℚ × Nat) (fuel : Nat) :
    ∀ lss : List Nat,
      lss.foldl
        (fun acc ls => acc.bind fun l => (sweepWidth (gtl ls) fuel).map fun v => l ++ [v])
        none = none := by
  intro lss
  induction lss with
  | nil => rfl
  | cons ls lss ih =>
    rw [List.foldl_cons, Option.none_bind]
    exact ih

/-- C8: every element the sweep appends to `test_losses` is an average of
accepted runs, hence bounded by the retry-rejection threshold 15. -/
theorem sweep_losses_bounded (gtl : Nat → Nat → Nat → ℚ × Nat) (fuel : Nat) (L : List ℚ)
    (hL : sweepTestLosses gtl fuel = some L) : ∀ v ∈ L, v ≤ 15 := by
  suffices hgen : ∀ (lss : List Nat) (init L : List ℚ),
      lss.foldl
        (fun acc ls => acc.bind fun l => (sweepWidth (gtl ls) fuel).map fun v => l ++ [v])
        (some init) = some L →
      (∀ v ∈ init, v ≤ 15) → ∀ v ∈ L, v ≤ 15 by
    exact hgen layerSizes [] L hL (by simp)
  intro lss
  induction lss with
  | nil =>
    intro init L hL hinit
    simp only [List.foldl_nil, Option.some.injEq] at hL
    rwa [← hL]
  | cons ls lss ih =>
    intro init L hL hinit
    rw [List.foldl_cons, Option.some_bind] at hL
    rcases hw : sweepWidth (gtl ls) fuel with _ | v0
    · rw [hw] at hL
      simp only [Option.map_none'] at hL
      rw [sweepOuterFold_none] at hL
      cases hL
    · rw [hw, Option.map_some'] at hL
      refine ih (init ++ [v0]) L hL ?_
      intro v hv
      rcases List.mem_append.mp hv with hv | hv
      · exact hinit v hv
      · rw [List.mem_singleton.mp hv]
        exact sweepWidth_le (gtl ls) fuel v0 hw

theorem sweep_losses_bounded_witness : (0 : ℚ) ≤ 15 :=
  sweep_losses_bounded (fun _ _ _ => ((0 : ℚ), 9)) 1
    [0, 0, 0, 0, 0, 0, 0, 0, 0, 0, 0, 0, 0]
    (by norm_num [sweepTestLosses, layerSizes, sweepWidth, num_runs, retryRun,
      List.range_succ, List.range'])
    0 (List.mem_cons_self 0 _)

end ImplicitReg

namespace ResNetDemo

/-- Broadcasting reads the source at the output index whenever the index is
within the source dimension. -/
theorem bcastIdx_self (d i : Nat) (h : i < d) : bcastIdx d i = i := by
  unfold bcastIdx
  split
  · omega
  · rfl

/-- Convolution succeeds when the channels match and the kernel fits the
padded input. -/
theorem Conv2d.convApply_some (conv : Conv2d) (x : Tensor4)
    (h1 : x.channels = conv.in_channels)
    (h2 : conv.kernel_size ≤ x.height + 2 * conv.padding)
    (h3 : conv.kernel_size ≤ x.width + 2 * conv.padding) :
    conv.apply x = some (conv.outT x) := by
  rw [Conv2d.apply, if_pos ⟨h1, h2, h3⟩]

/-- Convolution fails when its validity check fails. -/
theorem Conv2d.convApply_none (conv : Conv2d) (x : Tensor4)
    (h : ¬(x.channels = conv.in_channels ∧ conv.kernel_size ≤ x.height + 2 * conv.padding ∧
      conv.kernel_size ≤ x.width + 2 * conv.padding)) :
    conv.apply x = none := by
  rw [Conv2d.apply, if_neg h]

theorem Conv2d.convOut_batch (conv : Conv2d) (x : Tensor4) : (conv.outT x).batch = x.batch := rfl

theorem Conv2d.convOut_channels (conv : Conv2d) (x : Tensor4) :
    (conv.outT x).channels = conv.out_channels := rfl

theorem Conv2d.convOut_height (conv : Conv2d) (x : Tensor4) :
    (conv.outT x).height = x.height + 2 * conv.padding + 1 - conv.kernel_size := rfl

theorem Conv2d.convOut_width (conv : Conv2d) (x : Tensor4) :
    (conv.outT x).width = x.width + 2 * conv.padding + 1 - conv.kernel_size := rfl

/-- Batch norm succeeds on a matching channel count when the batch holds
more than one value per channel. -/
theorem BatchNorm2d.bnApply_some (bn : BatchNorm2d) (x : Tensor4)
    (h : x.channels = bn.num_features) (hv : 1 < x.batch * x.height * x.width) :
    bn.apply x = some (bn.outT x) := by
  rw [BatchNorm2d.apply, if_pos ⟨h, hv⟩]

/-- Batch norm fails when its training-mode validity check fails. -/
theorem BatchNorm2d.bnApply_none (bn : BatchNorm2d) (x : Tensor4)
    (h : ¬(x.channels = bn.num_features ∧ 1 < x.batch * x.height * x.width)) :
    bn.apply x = none := by
  rw [BatchNorm2d.apply, if_neg h]

theorem BatchNorm2d.bnOut_batch (bn : BatchNorm2d) (x : Tensor4) :
    (bn.outT x).batch = x.batch := rfl

theorem BatchNorm2d.bnOut_channels (bn : BatchNorm2d) (x : Tensor4) :
    (bn.outT x).channels = x.channels := rfl

theorem BatchNorm2d.bnOut_height (bn : BatchNorm2d) (x : Tensor4) :
    (bn.outT x).height = x.height := rfl

theorem BatchNorm2d.bnOut_width (bn : BatchNorm2d) (x : Tensor4) :
    (bn.outT x).width = x.width := rfl

theorem reluT_batch (x : Tensor4) : (reluT x).batch = x.batch := rfl

theorem reluT_channels (x : Tensor4) : (reluT x).channels = x.channels := rfl

theorem reluT_height (x : Tensor4) : (reluT x).height = x.height := rfl

theorem reluT_width (x : Tensor4) : (reluT x).width = x.width := rfl

theorem Tensor4.addOut_batch (t x : Tensor4) : (t.addOut x).batch = t.batch := rfl

theorem Tensor4.addOut_channels (t x : Tensor4) : (t.addOut x).channels = t.channels := rfl

theorem Tensor4.addOut_height (t x : Tensor4) : (t.addOut x).height = t.height := rfl

theorem Tensor4.addOut_width (t x : Tensor4) : (t.addOut x).width = t.width := rfl

/-- The in-place sum succeeds when the broadcast check holds. -/
theorem Tensor4.addInPlace_some (t x : Tensor4)
    (h : (x.batch = t.batch ∨ x.batch = 1) ∧ (x.channels = t.channels ∨ x.channels = 1) ∧
      (x.height = t.height ∨ x.height = 1) ∧ (x.width = t.width ∨ x.width = 1)) :
    t.addInPlace x = some (t.addOut x) := by
  rw [Tensor4.addInPlace, if_pos h]

/-- The in-place sum fails when the broadcast check fails. -/
theorem Tensor4.addInPlace_none (t x : Tensor4)
    (h : ¬((x.batch = t.batch ∨ x.batch = 1) ∧ (x.channels = t.channels ∨ x.channels = 1) ∧
      (x.height = t.height ∨ x.height = 1) ∧ (x.width = t.width ∨ x.width = 1))) :
    t.addInPlace x = none := by
  rw [Tensor4.addInPlace, if_neg h]

/-- Unfolding the forward pass when every stage succeeds. -/
theorem BuildingBlock.forward_eq (blk : BuildingBlock) (x s1 a1 s2 t u : Tensor4)
    (hc1 : blk.conv1.apply x = some s1)
    (hbn1 : blk.bn1.apply s1 = some a1)
    (hc2 : blk.conv2.apply (reluT a1) = some s2)
    (hbn2 : blk.bn2.apply s2 = some t)
    (hadd : t.addInPlace x = some u) :
    blk.forward x = some (reluT u) := by
  simp only [BuildingBlock.forward, hc1, Option.some_bind, hbn1, hc2, hbn2, hadd,
    Option.map_some']

/-- The forward pass fails as soon as the first convolution fails. -/
theorem BuildingBlock.forward_none_conv1 (blk : BuildingBlock) (x : Tensor4)
    (hc1 : blk.conv1.apply x = none) : blk.forward x = none := by
  simp only [BuildingBlock.forward, hc1, Option.none_bind]

/-- The forward pass fails as soon as the first batch norm fails. -/
theorem BuildingBlock.forward_none_bn1 (blk : BuildingBlock) (x s1 : Tensor4)
    (hc1 : blk.conv1.apply x = some s1)
    (hbn1 : blk.bn1.apply s1 = none) : blk.forward x = none := by
  simp only [BuildingBlock.forward, hc1, Option.some_bind, hbn1, Option.none_bind]

/-- The forward pass fails as soon as the second batch norm fails. -/
theorem BuildingBlock.forward_none_bn2 (blk : BuildingBlock) (x s1 a1 s2 : Tensor4)
    (hc1 : blk.conv1.apply x = some s1)
    (hbn1 : blk.bn1.apply s1 = some a1)
    (hc2 : blk.conv2.apply (reluT a1) = some s2)
    (hbn2 : blk.bn2.apply s2 = none) : blk.forward x = none := by
  simp only [BuildingBlock.forward, hc1, Option.some_bind, hbn1, hc2, hbn2, Option.none_bind]

/-- The forward pass fails as soon as the second convolution fails. -/
theorem BuildingBlock.forward_none_conv2 (blk : BuildingBlock) (x s1 a1 : Tensor4)
    (hc1 : blk.conv1.apply x = some s1)
    (hbn1 : blk.bn1.apply s1 = some a1)
    (hc2 : blk.conv2.apply (reluT a1) = none) : blk.forward x = none := by
  simp only [BuildingBlock.forward, hc1, Option.some_bind, hbn1, hc2, Option.none_bind]

/-- The forward pass fails as soon as the residual addition fails. -/
theorem BuildingBlock.forward_none_add (blk : BuildingBlock) (x s1 a1 s2 t : Tensor4)
    (hc1 : blk.conv1.apply x = some s1)
    (hbn1 : blk.bn1.apply s1 = some a1)
    (hc2 : blk.conv2.apply (reluT a1) = some s2)
    (hbn2 : blk.bn2.apply s2 = some t)
    (hadd : t.addInPlace x = none) : blk.forward x = none := by
  simp only [BuildingBlock.forward, hc1, Option.some_bind, hbn1, hc2, hbn2, hadd,
    Option.map_none']

end ResNetDemo


namespace ResNetDemo

/-- For any block built like the unpadded notebook block (3 by 3 convolutions,
padding 0), the forward pass never returns a value: either a convolution
rejects a too-small input, or the residual addition rejects the shrunken
spatial shape. -/
theorem forward_none_of_unpadded (blk : BuildingBlock) (nc : Nat)
    (h1i : blk.conv1.in_channels = nc) (h1o : blk.conv1.out_channels = nc)
    (h1k : blk.conv1.kernel_size = 3) (h1p : blk.conv1.padding = 0)
    (hn1 : blk.bn1.num_features = nc)
    (h2i : blk.conv2.in_channels = nc) (h2o : blk.conv2.out_channels = nc)
    (h2k : blk.conv2.kernel_size = 3) (h2p : blk.conv2.padding = 0)
    (hn2 : blk.bn2.num_features = nc)
    (z : Tensor4) : blk.forward z = none := by
  by_cases hcond1 : z.channels = blk.conv1.in_channels ∧
      blk.conv1.kernel_size ≤ z.height + 2 * blk.conv1.padding ∧
      blk.conv1.kernel_size ≤ z.width + 2 * blk.conv1.padding
  case neg => exact BuildingBlock.forward_none_conv1 _ _ (Conv2d.convApply_none _ _ hcond1)
  obtain ⟨hch, hhh, hww⟩ := hcond1
  have hc1 := Conv2d.convApply_some blk.conv1 z hch hhh hww
  by_cases hv1 : 1 < (blk.conv1.outT z).batch * (blk.conv1.outT z).height *
      (blk.conv1.outT z).width
  case neg =>
    exact BuildingBlock.forward_none_bn1 _ _ _ hc1
      (BatchNorm2d.bnApply_none _ _ (fun hcon => hv1 hcon.2))
  have hbn1 := BatchNorm2d.bnApply_some blk.bn1 (blk.conv1.outT z)
    (by rw [Conv2d.convOut_channels, h1o, hn1]) hv1
  have hs1h : (blk.conv1.outT z).height = z.height - 2 := by
    rw [Conv2d.convOut_height, h1k, h1p]
    omega
  have hs1w : (blk.conv1.outT z).width = z.width - 2 := by
    rw [Conv2d.convOut_width, h1k, h1p]
    omega
  have ha1h : (reluT (blk.bn1.outT (blk.conv1.outT z))).height = z.height - 2 := by
    rw [reluT_height, BatchNorm2d.bnOut_height, hs1h]
  have ha1w : (reluT (blk.bn1.outT (blk.conv1.outT z))).width = z.width - 2 := by
    rw [reluT_width, BatchNorm2d.bnOut_width, hs1w]
  have ha1c : (reluT (blk.bn1.outT (blk.conv1.outT z))).channels = nc := by
    rw [reluT_channels, BatchNorm2d.bnOut_channels, Conv2d.convOut_channels, h1o]
  by_cases hcond2 : blk.conv2.kernel_size ≤
      (reluT (blk.bn1.outT (blk.conv1.outT z))).height + 2 * blk.conv2.padding ∧
      blk.conv2.kernel_size ≤
      (reluT (blk.bn1.outT (blk.conv1.outT z))).width + 2 * blk.conv2.padding
  case neg =>
    have hc2 : blk.conv2.apply (reluT (blk.bn1.outT (blk.conv1.outT z))) = none :=
      Conv2d.convApply_none _ _ (fun hcon => hcond2 ⟨hcon.2.1, hcon.2.2⟩)
    exact BuildingBlock.forward_none_conv2 _ _ _ _ hc1 hbn1 hc2
  obtain ⟨h2h, h2w⟩ := hcond2
  have hc2 := Conv2d.convApply_some blk.conv2 (reluT (blk.bn1.outT (blk.conv1.outT z)))
    (ha1c.trans h2i.symm) h2h h2w
  have hs2c : (blk.conv2.outT (reluT (blk.bn1.outT (blk.conv1.outT z)))).channels = nc := by
    rw [Conv2d.convOut_channels, h2o]
  by_cases hv2 : 1 < (blk.conv2.outT (reluT (blk.bn1.outT (blk.conv1.outT z)))).batch *
      (blk.conv2.outT (reluT (blk.bn1.outT (blk.conv1.outT z)))).height *
      (blk.conv2.outT (reluT (blk.bn1.outT (blk.conv1.outT z)))).width
  case neg =>
    exact BuildingBlock.forward_none_bn2 _ _ _ _ _ hc1 hbn1 hc2
      (BatchNorm2d.bnApply_none _ _ (fun hcon => hv2 hcon.2))
  have hbn2 := BatchNorm2d.bnApply_some blk.bn2
    (blk.conv2.outT (reluT (blk.bn1.outT (blk.conv1.outT z)))) (hs2c.trans hn2.symm) hv2
  have hth : (blk.bn2.outT
      (blk.conv2.outT (reluT (blk.bn1.outT (blk.conv1.outT z))))).height =
      z.height - 4 := by
    rw [BatchNorm2d.bnOut_height, Conv2d.convOut_height, h2k, h2p, ha1h]
    omega
  have hz3 : 3 ≤ z.height := by
    rw [h1k, h1p] at hhh
    omega
  have hz5 : 5 ≤ z.height := by
    rw [h2k, h2p, ha1h] at h2h
    omega
  have hadd : (blk.bn2.outT
      (blk.conv2.outT (reluT (blk.bn1.outT (blk.conv1.outT z))))).addInPlace z =
      none := by
    apply Tensor4.addInPlace_none
    intro hcon
    have hh := hcon.2.2.1
    rw [hth] at hh
    omega
  exact BuildingBlock.forward_none_add _ _ _ _ _ _ hc1 hbn1 hc2 hbn2 hadd

/-- C2: for the unpadded BuildingBlock, a 1×64×50×50 input is mapped to
48×48 by the first weight layer and to 46×46 by the second, the residual
addition `out += x` then fails on the shape mismatch (46 against 50), and
the forward pass returns a value for no input whatsoever. -/
theorem unpadded_block_shape_mismatch
    (w1 : Nat → Nat → Nat → Nat → ℚ) (b1 : Nat → ℚ) (g1 be1 : Nat → ℚ)
    (inv1 : Tensor4 → Nat → ℚ)
    (w2 : Nat → Nat → Nat → Nat → ℚ) (b2 : Nat → ℚ) (g2 be2 : Nat → ℚ)
    (inv2 : Tensor4 → Nat → ℚ)
    (blk : BuildingBlock)
    (hblk : blk = BuildingBlock.mkUnpadded 64 w1 b1 g1 be1 inv1 w2 b2 g2 be2 inv2)
    (x : Tensor4) (hxb : x.batch = 1) (hxc : x.channels = 64)
    (hxh : x.height = 50) (hxw : x.width = 50) :
    (∃ s1, blk.conv1.apply x = some s1 ∧ s1.height = 48 ∧ s1.width = 48 ∧
      ∃ a1, blk.bn1.apply s1 = some a1 ∧
        ∃ s2, blk.conv2.apply (reluT a1) = some s2 ∧ s2.height = 46 ∧ s2.width = 46 ∧
          ∃ t, blk.bn2.apply s2 = some t ∧ t.addInPlace x = none) ∧
    blk.forward x = none ∧
    ∀ z : Tensor4, blk.forward z = none := by
  have h1i : blk.conv1.in_channels = 64 := by rw [hblk]; rfl
  have h1o : blk.conv1.out_channels = 64 := by rw [hblk]; rfl
  have h1k : blk.conv1.kernel_size = 3 := by rw [hblk]; rfl
  have h1p : blk.conv1.padding = 0 := by rw [hblk]; rfl
  have hn1 : blk.bn1.num_features = 64 := by rw [hblk]; rfl
  have h2i : blk.conv2.in_channels = 64 := by rw [hblk]; rfl
  have h2o : blk.conv2.out_channels = 64 := by rw [hblk]; rfl
  have h2k : blk.conv2.kernel_size = 3 := by rw [hblk]; rfl
  have h2p : blk.conv2.padding = 0 := by rw [hblk]; rfl
  have hn2 : blk.bn2.num_features = 64 := by rw [hblk]; rfl
  have hall : ∀ z : Tensor4, blk.forward z = none := fun z =>
    forward_none_of_unpadded blk 64 h1i h1o h1k h1p hn1 h2i h2o h2k h2p hn2 z
  refine ⟨?_, hall x, hall⟩
  have hc1 := Conv2d.convApply_some blk.conv1 x (by rw [hxc, h1i])
    (by rw [h1k, h1p, hxh]; norm_num) (by rw [h1k, h1p, hxw]; norm_num)
  have hs1h : (blk.conv1.outT x).height = 48 := by
    rw [Conv2d.convOut_height, h1k, h1p, hxh]
  have hs1w : (blk.conv1.outT x).width = 48 := by
    rw [Conv2d.convOut_width, h1k, h1p, hxw]
  have hs1b : (blk.conv1.outT x).batch = 1 := by
    rw [Conv2d.convOut_batch, hxb]
  have hv1 : 1 < (blk.conv1.outT x).batch * (blk.conv1.outT x).height *
      (blk.conv1.outT x).width := by
    rw [hs1b, hs1h, hs1w]
    norm_num
  have hbn1 := BatchNorm2d.bnApply_some blk.bn1 (blk.conv1.outT x)
    (by rw [Conv2d.convOut_channels, h1o, hn1]) hv1
  have ha1b : (reluT (blk.bn1.outT (blk.conv1.outT x))).batch = 1 := by
    rw [reluT_batch, BatchNorm2d.bnOut_batch, hs1b]
  have ha1h : (reluT (blk.bn1.outT (blk.conv1.outT x))).height = 48 := by
    rw [reluT_height, BatchNorm2d.bnOut_height, hs1h]
  have ha1w : (reluT (blk.bn1.outT (blk.conv1.outT x))).width = 48 := by
    rw [reluT_width, BatchNorm2d.bnOut_width, hs1w]
  have ha1c : (reluT (blk.bn1.outT (blk.conv1.outT x))).channels = 64 := by
    rw [reluT_channels, BatchNorm2d.bnOut_channels, Conv2d.convOut_channels, h1o]
  have hc2 := Conv2d.convApply_some blk.conv2 (reluT (blk.bn1.outT (blk.conv1.outT x)))
    (ha1c.trans h2i.symm) (by rw [h2k, h2p, ha1h]; norm_num)
    (by rw [h2k, h2p, ha1w]; norm_num)
  have hs2h : (blk.conv2.outT (reluT (blk.bn1.outT (blk.conv1.outT x)))).height = 46 := by
    rw [Conv2d.convOut_height, h2k, h2p, ha1h]
  have hs2w : (blk.conv2.outT (reluT (blk.bn1.outT (blk.conv1.outT x)))).width = 46 := by
    rw [Conv2d.convOut_width, h2k, h2p, ha1w]
  have hs2c : (blk.conv2.outT (reluT (blk.bn1.outT (blk.conv1.outT x)))).channels = 64 := by
    rw [Conv2d.convOut_channels, h2o]
  have hs2b : (blk.conv2.outT (reluT (blk.bn1.outT (blk.conv1.outT x)))).batch = 1 := by
    rw [Conv2d.convOut_batch, ha1b]
  have hv2 : 1 < (blk.conv2.outT (reluT (blk.bn1.outT (blk.conv1.outT x)))).batch *
      (blk.conv2.outT (reluT (blk.bn1.outT (blk.conv1.outT x)))).height *
      (blk.conv2.outT (reluT (blk.bn1.outT (blk.conv1.outT x)))).width := by
    rw [hs2b, hs2h, hs2w]
    norm_num
  have hbn2 := BatchNorm2d.bnApply_some blk.bn2
    (blk.conv2.outT (reluT (blk.bn1.outT (blk.conv1.outT x)))) (hs2c.trans hn2.symm) hv2
  have hth : (blk.bn2.outT
      (blk.conv2.outT (reluT (blk.bn1.outT (blk.conv1.outT x))))).height = 46 := by
    rw [BatchNorm2d.bnOut_height, hs2h]
  have hadd : (blk.bn2.outT
      (blk.conv2.outT (reluT (blk.bn1.outT (blk.conv1.outT x))))).addInPlace x = none := by
    apply Tensor4.addInPlace_none
    intro hcon
    have hh := hcon.2.2.1
    rw [hth, hxh] at hh
    omega
  exact ⟨_, hc1, hs1h, hs1w, _, hbn1, _, hc2, hs2h, hs2w, _, hbn2, hadd⟩

/-- C1 (amended): for every input of shape (B, C, H, W) whose channel count
C equals the block's configured `num_channels`, with positive spatial extent
and more than one value per channel in the batch (B·H·W > 1, the
training-mode batch-norm requirement — see the counterexample below for
B = H = W = 1), the padded BuildingBlock's forward pass applies two
sequential (convolution, batch-norm, activation) stages, each preserving the
spatial dimensions via padding 1, adds the original input elementwise to the
second stage's pre-activation output (after bn2, before the final ReLU),
applies the final ReLU, and returns an output of the identical shape
(B, C, H, W). -/
theorem padded_block_preserves_shape
    (nc B H W : Nat) (hH : 1 ≤ H) (hW : 1 ≤ W) (hv : 1 < B * H * W)
    (w1 : Nat → Nat → Nat → Nat → ℚ) (b1 : Nat → ℚ) (g1 be1 : Nat → ℚ)
    (inv1 : Tensor4 → Nat → ℚ)
    (w2 : Nat → Nat → Nat → Nat → ℚ) (b2 : Nat → ℚ) (g2 be2 : Nat → ℚ)
    (inv2 : Tensor4 → Nat → ℚ)
    (blk : BuildingBlock)
    (hblk : blk = BuildingBlock.mkPadded nc w1 b1 g1 be1 inv1 w2 b2 g2 be2 inv2)
    (x : Tensor4) (hxb : x.batch = B) (hxc : x.channels = nc)
    (hxh : x.height = H) (hxw : x.width = W) :
    ∃ s1 a1 s2 t y : Tensor4,
      blk.conv1.apply x = some s1 ∧
      s1.batch = B ∧ s1.channels = nc ∧ s1.height = H ∧ s1.width = W ∧
      blk.bn1.apply s1 = some a1 ∧
      a1.batch = B ∧ a1.channels = nc ∧ a1.height = H ∧ a1.width = W ∧
      blk.conv2.apply (reluT a1) = some s2 ∧
      s2.batch = B ∧ s2.channels = nc ∧ s2.height = H ∧ s2.width = W ∧
      blk.bn2.apply s2 = some t ∧
      t.batch = B ∧ t.channels = nc ∧ t.height = H ∧ t.width = W ∧
      blk.forward x = some y ∧
      y.batch = B ∧ y.channels = nc ∧ y.height = H ∧ y.width = W ∧
      ∀ b c i j, b < B → c < nc → i < H → j < W →
        y.data b c i j = max 0 (t.data b c i j + x.data b c i j) := by
  have h1i : blk.conv1.in_channels = nc := by rw [hblk]; rfl
  have h1o : blk.conv1.out_channels = nc := by rw [hblk]; rfl
  have h1k : blk.conv1.kernel_size = 3 := by rw [hblk]; rfl
  have h1p : blk.conv1.padding = 1 := by rw [hblk]; rfl
  have hn1 : blk.bn1.num_features = nc := by rw [hblk]; rfl
  have h2i : blk.conv2.in_channels = nc := by rw [hblk]; rfl
  have h2o : blk.conv2.out_channels = nc := by rw [hblk]; rfl
  have h2k : blk.conv2.kernel_size = 3 := by rw [hblk]; rfl
  have h2p : blk.conv2.padding = 1 := by rw [hblk]; rfl
  have hn2 : blk.bn2.num_features = nc := by rw [hblk]; rfl
  set s1 := blk.conv1.outT x with hs1def
  set a1 := blk.bn1.outT s1 with ha1def
  set r1 := reluT a1 with hr1def
  set s2 := blk.conv2.outT r1 with hs2def
  set t := blk.bn2.outT s2 with htdef
  set u := t.addOut x with hudef
  set y := reluT u with hydef
  have hc1 : blk.conv1.apply x = some s1 :=
    Conv2d.convApply_some blk.conv1 x (by rw [hxc, h1i]) (by rw [h1k, h1p]; omega)
      (by rw [h1k, h1p]; omega)
  have hs1b : s1.batch = B := by rw [hs1def, Conv2d.convOut_batch, hxb]
  have hs1c : s1.channels = nc := by rw [hs1def, Conv2d.convOut_channels, h1o]
  have hs1h : s1.height = H := by
    rw [hs1def, Conv2d.convOut_height, h1k, h1p, hxh]
    omega
  have hs1w : s1.width = W := by
    rw [hs1def, Conv2d.convOut_width, h1k, h1p, hxw]
    omega
  have hbn1 : blk.bn1.apply s1 = some a1 :=
    BatchNorm2d.bnApply_some blk.bn1 s1 (by rw [hs1c, hn1])
      (by rw [hs1b, hs1h, hs1w]; exact hv)
  have ha1b : a1.batch = B := by rw [ha1def, BatchNorm2d.bnOut_batch, hs1b]
  have ha1c : a1.channels = nc := by rw [ha1def, BatchNorm2d.bnOut_channels, hs1c]
  have ha1h : a1.height = H := by rw [ha1def, BatchNorm2d.bnOut_height, hs1h]
  have ha1w : a1.width = W := by rw [ha1def, BatchNorm2d.bnOut_width, hs1w]
  have hr1b : r1.batch = B := by rw [hr1def, reluT_batch, ha1b]
  have hr1c : r1.channels = nc := by rw [hr1def, reluT_channels, ha1c]
  have hr1h : r1.height = H := by rw [hr1def, reluT_height, ha1h]
  have hr1w : r1.width = W := by rw [hr1def, reluT_width, ha1w]
  have hc2 : blk.conv2.apply r1 = some s2 :=
    Conv2d.convApply_some blk.conv2 r1 (by rw [hr1c, h2i]) (by rw [h2k, h2p, hr1h]; omega)
      (by rw [h2k, h2p, hr1w]; omega)
  have hs2b : s2.batch = B := by rw [hs2def, Conv2d.convOut_batch, hr1b]
  have hs2c : s2.channels = nc := by rw [hs2def, Conv2d.convOut_channels, h2o]
  have hs2h : s2.height = H := by
    rw [hs2def, Conv2d.convOut_height, h2k, h2p, hr1h]
    omega
  have hs2w : s2.width = W := by
    rw [hs2def, Conv2d.convOut_width, h2k, h2p, hr1w]
    omega
  have hbn2 : blk.bn2.apply s2 = some t :=
    BatchNorm2d.bnApply_some blk.bn2 s2 (by rw [hs2c, hn2])
      (by rw [hs2b, hs2h, hs2w]; exact hv)
  have htb : t.batch = B := by rw [htdef, BatchNorm2d.bnOut_batch, hs2b]
  have htc : t.channels = nc := by rw [htdef, BatchNorm2d.bnOut_channels, hs2c]
  have hth : t.height = H := by rw [htdef, BatchNorm2d.bnOut_height, hs2h]
  have htw : t.width = W := by rw [htdef, BatchNorm2d.bnOut_width, hs2w]
  have hadd : t.addInPlace x = some u :=
    Tensor4.addInPlace_some t x
      ⟨Or.inl (by rw [htb, hxb]), Or.inl (by rw [htc, hxc]),
        Or.inl (by rw [hth, hxh]), Or.inl (by rw [htw, hxw])⟩
  have hfwd : blk.forward x = some y :=
    BuildingBlock.forward_eq blk x s1 a1 s2 t u hc1 hbn1 hc2 hbn2 hadd
  have hyb : y.batch = B := by rw [hydef, reluT_batch, hudef, Tensor4.addOut_batch, htb]
  have hyc : y.channels = nc := by
    rw [hydef, reluT_channels, hudef, Tensor4.addOut_channels, htc]
  have hyh : y.height = H := by rw [hydef, reluT_height, hudef, Tensor4.addOut_height, hth]
  have hyw : y.width = W := by rw [hydef, reluT_width, hudef, Tensor4.addOut_width, htw]
  refine ⟨s1, a1, s2, t, y, hc1, hs1b, hs1c, hs1h, hs1w, hbn1, ha1b, ha1c, ha1h, ha1w,
    hc2, hs2b, hs2c, hs2h, hs2w, hbn2, htb, htc, hth, htw, hfwd, hyb, hyc, hyh, hyw, ?_⟩
  intro b c i j hb hc hi hj
  have hdata : y.data b c i j = max 0 (t.data b c i j +
      x.data (bcastIdx x.batch b) (bcastIdx x.channels c) (bcastIdx x.height i)
        (bcastIdx x.width j)) := rfl
  rw [hdata, bcastIdx_self x.batch b (by omega), bcastIdx_self x.channels c (by omega),
    bcastIdx_self x.height i (by omega), bcastIdx_self x.width j (by omega)]

/-- C1 counterexample: on the (1, 1, 1, 1) input — one value per channel —
the padded block's forward pass returns no value: the first batch norm's
training-mode check rejects the batch, exactly where the program raises
ValueError("Expected more than 1 value per channel when training"), so the
claim's unconditional "returns an output of identical shape" fails. -/
theorem padded_block_single_value_counterexample :
    (BuildingBlock.mkPadded 1 (fun _ _ _ _ => 0) (fun _ => 0) (fun _ => 0) (fun _ => 0)
        (fun _ _ => 0) (fun _ _ _ _ => 0) (fun _ => 0) (fun _ => 0) (fun _ => 0)
        (fun _ _ => 0)).forward ⟨1, 1, 1, 1, fun _ _ _ _ => 0⟩ = none := by
  have hc1 := Conv2d.convApply_some
    (BuildingBlock.mkPadded 1 (fun _ _ _ _ => 0) (fun _ => 0) (fun _ => 0) (fun _ => 0)
      (fun _ _ => 0) (fun _ _ _ _ => 0) (fun _ => 0) (fun _ => 0) (fun _ => 0)
      (fun _ _ => 0)).conv1
    ⟨1, 1, 1, 1, fun _ _ _ _ => 0⟩ rfl (by decide) (by decide)
  refine BuildingBlock.forward_none_bn1 _ _ _ hc1 (BatchNorm2d.bnApply_none _ _ ?_)
  intro hcon
  exact absurd hcon.2 (by decide)

theorem padded_block_preserves_shape_witness :
    ∃ s1 a1 s2 t y : Tensor4,
      (BuildingBlock.mkPadded 1 (fun _ _ _ _ => 0) (fun _ => 0) (fun _ => 0) (fun _ => 0)
          (fun _ _ => 0) (fun _ _ _ _ => 0) (fun _ => 0) (fun _ => 0) (fun _ => 0)
          (fun _ _ => 0)).conv1.apply ⟨1, 1, 2, 2, fun _ _ _ _ => 0⟩ = some s1 ∧
      s1.batch = 1 ∧ s1.channels = 1 ∧ s1.height = 2 ∧ s1.width = 2 ∧
      (BuildingBlock.mkPadded 1 (fun _ _ _ _ => 0) (fun _ => 0) (fun _ => 0) (fun _ => 0)
          (fun _ _ => 0) (fun _ _ _ _ => 0) (fun _ => 0) (fun _ => 0) (fun _ => 0)
          (fun _ _ => 0)).bn1.apply s1 = some a1 ∧
      a1.batch = 1 ∧ a1.channels = 1 ∧ a1.height = 2 ∧ a1.width = 2 ∧
      (BuildingBlock.mkPadded 1 (fun _ _ _ _ => 0) (fun _ => 0) (fun _ => 0) (fun _ => 0)
          (fun _ _ => 0) (fun _ _ _ _ => 0) (fun _ => 0) (fun _ => 0) (fun _ => 0)
          (fun _ _ => 0)).conv2.apply (reluT a1) = some s2 ∧
      s2.batch = 1 ∧ s2.channels = 1 ∧ s2.height = 2 ∧ s2.width = 2 ∧
      (BuildingBlock.mkPadded 1 (fun _ _ _ _ => 0) (fun _ => 0) (fun _ => 0) (fun _ => 0)
          (fun _ _ => 0) (fun _ _ _ _ => 0) (fun _ => 0) (fun _ => 0) (fun _ => 0)
          (fun _ _ => 0)).bn2.apply s2 = some t ∧
      t.batch = 1 ∧ t.channels = 1 ∧ t.height = 2 ∧ t.width = 2 ∧
      (BuildingBlock.mkPadded 1 (fun _ _ _ _ => 0) (fun _ => 0) (fun _ => 0) (fun _ => 0)
          (fun _ _ => 0) (fun _ _ _ _ => 0) (fun _ => 0) (fun _ => 0) (fun _ => 0)
          (fun _ _ => 0)).forward ⟨1, 1, 2, 2, fun _ _ _ _ => 0⟩ = some y ∧
      y.batch = 1 ∧ y.channels = 1 ∧ y.height = 2 ∧ y.width = 2 ∧
      ∀ b c i j, b < 1 → c < 1 → i < 2 → j < 2 →
        y.data b c i j = max 0 (t.data b c i j +
          Tensor4.data ⟨1, 1, 2, 2, fun _ _ _ _ => 0⟩ b c i j) :=
  padded_block_preserves_shape 1 1 2 2 (by norm_num) (by norm_num) (by norm_num)
    (fun _ _ _ _ => 0) (fun _ => 0) (fun _ => 0) (fun _ => 0) (fun _ _ => 0)
    (fun _ _ _ _ => 0) (fun _ => 0) (fun _ => 0) (fun _ => 0) (fun _ _ => 0)
    _ rfl ⟨1, 1, 2, 2, fun _ _ _ _ => 0⟩ rfl rfl rfl rfl

theorem unpadded_block_shape_mismatch_witness :
    (BuildingBlock.mkUnpadded 64 (fun _ _ _ _ => 0) (fun _ => 0) (fun _ => 0) (fun _ => 0)
        (fun _ _ => 0) (fun _ _ _ _ => 0) (fun _ => 0) (fun _ => 0) (fun _ => 0)
        (fun _ _ => 0)).forward ⟨1, 64, 50, 50, fun _ _ _ _ => 0⟩ = none :=
  (unpadded_block_shape_mismatch (fun _ _ _ _ => 0) (fun _ => 0) (fun _ => 0) (fun _ => 0)
    (fun _ _ => 0) (fun _ _ _ _ => 0) (fun _ => 0) (fun _ => 0) (fun _ => 0) (fun _ _ => 0)
    _ rfl ⟨1, 64, 50, 50, fun _ _ _ _ => 0⟩ rfl rfl rfl rfl).2.1

end ResNetDemo
